import Mathlib

/-!
# Verification of rifiuti2 `src/utils.c`

A shallow embedding of the data model and the functions of `src/utils.c`
(recycle-bin artifact metadata, OS version classifier, output serializers,
option handling, exit-code computation), together with theorems settling
the specification claims about them.

Machine integers are modelled as `Nat`/`Int` with explicit bounds where
overflow matters.  Fallible C functions are modelled with `Option`/`Except`.
Functions of this repository that live outside `src/` (notably
`conv_path_to_utf8_with_tmpl` and `enc_is_ascii_compatible` from
`utils-conv.c`) are modelled from the spec and marked as such in their
doc comments.
-/

namespace Rifiuti

/-- Recycle bin type: single flat INFO2 file, or directory of `$I` files
(`rbin_type` from `utils.h`, as used in `utils.c`). -/
inductive rbin_type where
  | RECYCLE_BIN_TYPE_FILE
  | RECYCLE_BIN_TYPE_DIR
deriving DecidableEq, Repr

/-- Declared artifact version tag (`detected_os_ver` values used in
`utils.c`: the symbolic constants matched by `_guess_windows_ver` and
`_print_text_header`). -/
inductive os_version where
  | VERSION_NOT_FOUND
  | VERSION_WIN95
  | VERSION_NT4
  | VERSION_WIN98
  | VERSION_ME_03
  | VERSION_VISTA
  | VERSION_WIN10
deriving DecidableEq, Repr

/-- Detailed OS version guess (`_os_guess` enum, utils.c lines 57-69). -/
inductive _os_guess where
  | OS_GUESS_UNKNOWN
  | OS_GUESS_95
  | OS_GUESS_NT4
  | OS_GUESS_98
  | OS_GUESS_ME
  | OS_GUESS_2K
  | OS_GUESS_XP_03
  | OS_GUESS_2K_03
  | OS_GUESS_VISTA
  | OS_GUESS_10
deriving DecidableEq, Repr

open _os_guess os_version rbin_type

/-- Output strings for OS detection (`os_strings` array, utils.c lines
75-85).  The C array has no entry for `OS_GUESS_UNKNOWN` (the callers
guard against indexing with it); the value returned here for
`OS_GUESS_UNKNOWN` is never consulted by any modelled caller. -/
def os_strings : _os_guess → String
  | OS_GUESS_95      => "Windows 95"
  | OS_GUESS_NT4     => "Windows NT 4.0"
  | OS_GUESS_98      => "Windows 98"
  | OS_GUESS_ME      => "Windows ME"
  | OS_GUESS_2K      => "Windows 2000"
  | OS_GUESS_XP_03   => "Windows XP or 2003"
  | OS_GUESS_2K_03   => "Windows 2000, XP or 2003"
  | OS_GUESS_VISTA   => "Windows Vista - 8.1"
  | OS_GUESS_10      => "Windows 10 or above"
  | OS_GUESS_UNKNOWN => ""

/-- Error domains of the `GError` values appearing in `utils.c`. -/
inductive err_domain where
  | G_OPTION_ERROR
  | G_FILE_ERROR
  | R2_FATAL_ERROR
  | R2_RECORD_ERROR
  | G_CONVERT_ERROR
  | OTHER_DOMAIN
deriving DecidableEq, Repr

/-- Error codes of the `GError` values appearing in `utils.c`. -/
inductive err_code where
  | G_OPTION_ERROR_FAILED
  | G_OPTION_ERROR_BAD_VALUE
  | G_FILE_ERROR_NOENT
  | G_FILE_ERROR_FAILED
  | R2_FATAL_ERROR_ILLEGAL_DATA
  | R2_FATAL_ERROR_TEMPFILE
  | R2_FATAL_ERROR_LIVE_UNSUPPORTED
  | G_CONVERT_ERROR_NO_CONVERSION
  | G_CONVERT_ERROR_ILLEGAL_SEQUENCE
  | G_CONVERT_ERROR_PARTIAL_INPUT
  | OTHER_CODE
deriving DecidableEq, Repr

/-- A `GError`: domain quark, code, message. -/
structure gerror where
  domain  : err_domain
  code    : err_code
  message : String
deriving DecidableEq, Repr

/-- Tri-state existence flag of a deleted item (`record->gone`;
spec: gone / present-on-disk / not checked on this source). -/
inductive gone_state where
  | GONE_UNKNOWN
  | GONE_NO
  | GONE_YES
deriving DecidableEq, Repr

/-- The constant `G_MAXUINT64`, the all-bits-set 64-bit sentinel. -/
def G_MAXUINT64 : Nat := 2 ^ 64 - 1

/-- One recycle-bin record (`rbin_struct`), as read and written by
`utils.c`.  Raw paths are byte sequences; deletion time is the UTC unix
second count of the decoded `GDateTime`; `error` is the attached
per-record decode error. -/
structure rbin_struct where
  index_n         : Nat
  index_s         : String
  deltime         : Int
  gone            : gone_state
  filesize        : Nat
  raw_uni_path    : List Nat
  raw_legacy_path : List Nat
  error           : Option gerror
deriving DecidableEq, Repr

/-- Artifact metadata (`metarecord`), as read by `utils.c`.
`invalid_records` models the hash table of unreadable entries as an
association list from record key to error. -/
structure metarecord where
  filename        : String
  type            : rbin_type
  version         : os_version
  recordsize      : Nat
  total_entry     : Nat
  fill_junk       : Bool
  records         : List rbin_struct
  invalid_records : List (String × gerror)
deriving DecidableEq, Repr

/-- The function `_guess_windows_ver` (utils.c lines 798-840).  Guesses the Windows
version which generated the artifact.  `none` models the
`g_assert_not_reached()` abort on an INFO2 version tag outside the known
set (the code comments that branch as impossible for real inputs). -/
def _guess_windows_ver (meta : metarecord) : Option _os_guess :=
  match meta.type with
  | RECYCLE_BIN_TYPE_DIR =>
    -- No attempt is made to distinguish difference for Vista - 8.1.
    match meta.version with
    | VERSION_VISTA => some OS_GUESS_VISTA
    | VERSION_WIN10 => some OS_GUESS_10
    | _             => some OS_GUESS_UNKNOWN
  | RECYCLE_BIN_TYPE_FILE =>
    -- INFO2 only below
    match meta.version with
    | VERSION_WIN95 => some OS_GUESS_95
    | VERSION_WIN98 => some OS_GUESS_98
    | VERSION_NT4   => some OS_GUESS_NT4
    | VERSION_ME_03 =>
      if meta.recordsize = 280 then
        some OS_GUESS_ME
      else if meta.records.length = 0 then
        some OS_GUESS_2K_03
      else if meta.fill_junk then
        some OS_GUESS_2K
      else
        some OS_GUESS_XP_03
    | _ => none

/-- The OS line printed by `_print_text_header` in non-live mode
(utils.c lines 958-965): `"OS detection failed"` for the unknown guess,
otherwise `"OS Guess: <os string>"`.  The `none` branch of the
classifier never reaches this point (the process would have aborted
inside `_guess_windows_ver`); it is rendered as the empty string. -/
def _print_text_header_os_line (meta : metarecord) : String :=
  match _guess_windows_ver meta with
  | some g => if g = OS_GUESS_UNKNOWN then "OS detection failed"
              else "OS Guess: " ++ os_strings g
  | none   => ""

/-- Process exit codes (`exitcode` values used by `utils.c`). -/
inductive exitcode where
  | EXIT_OK
  | EXIT_ERR_ARG
  | EXIT_ERR_OPEN_FILE
  | EXIT_ERR_ILLEGAL_DATA
  | EXIT_ERR_WRITE_FILE
  | EXIT_ERR_NO_LIVE
  | EXIT_ERR_UNHANDLED
  | EXIT_ERR_DUBIOUS_DATA
deriving DecidableEq, Repr

open exitcode err_domain err_code

/-- The function `_get_exit_code` (utils.c lines 1338-1368): maps the global `GError`
to a process exit code.  `none` models a `NULL` error pointer. -/
def _get_exit_code (error : Option gerror) : exitcode :=
  match error with
  | none => EXIT_OK
  | some e =>
    if e.domain = G_OPTION_ERROR then EXIT_ERR_ARG
    else if e.domain = G_FILE_ERROR then EXIT_ERR_OPEN_FILE
    else if e.domain = R2_FATAL_ERROR ∧ e.code = R2_FATAL_ERROR_ILLEGAL_DATA then
      EXIT_ERR_ILLEGAL_DATA
    else if e.domain = R2_FATAL_ERROR ∧ e.code = R2_FATAL_ERROR_TEMPFILE then
      EXIT_ERR_WRITE_FILE
    else if e.domain = R2_FATAL_ERROR ∧ e.code = R2_FATAL_ERROR_LIVE_UNSUPPORTED then
      EXIT_ERR_NO_LIVE
    else EXIT_ERR_UNHANDLED

/-- The function `_has_record_error` (utils.c lines 1371-1405): true when the
unreadable-entries table is non-empty, or when any decoded record
carries an attached error (`_dump_rec_error` sets the flag for each
record whose `error` field is non-NULL). -/
def _has_record_error (meta : metarecord) : Bool :=
  !meta.invalid_records.isEmpty || meta.records.any (fun r => r.error.isSome)

/-- The function `rifiuti_cleanup` (utils.c lines 1413-1446), restricted to its exit
code computation: the code from the global error, escalated to
`EXIT_ERR_DUBIOUS_DATA` when record-level errors exist and the code
would otherwise be `EXIT_OK`. -/
def rifiuti_cleanup (error : Option gerror) (meta : metarecord) : exitcode :=
  let code := _get_exit_code error
  if _has_record_error meta ∧ code = EXIT_OK then EXIT_ERR_DUBIOUS_DATA
  else code

/-- Smallest unix second count representable by a `GDateTime`
(0001-01-01 00:00:00 UTC), per GLib documentation. -/
def gdatetime_min_unix : Int := -62135596800

/-- Largest unix second count representable by a `GDateTime`
(9999-12-31 23:59:59 UTC), per GLib documentation. -/
def gdatetime_max_unix : Int := 253402300799

/-- GLib `g_date_time_new_from_unix_utc`, modelled per its
documentation: returns the UTC instant with the given unix second
count, represented here by that count, or `none` (C `NULL`) when the
count falls outside the representable range of years 0001-9999. -/
def g_date_time_new_from_unix_utc (t : Int) : Option Int :=
  if gdatetime_min_unix ≤ t ∧ t ≤ gdatetime_max_unix then some t else none

/-- Number of 100-ns ticks between 1601-01-01 and 1970-01-01. -/
def filetime_epoch_offset : Int := 116444736000000000

/-- The function `win_filetime_to_gdatetime` (utils.c lines 533-545): converts a
Windows FILETIME tick count to a UTC `GDateTime` at one-second
resolution.  The C `/` on `int64_t` truncates toward zero, modelled by
`Int.tdiv`. -/
def win_filetime_to_gdatetime (win_filetime : Int) : Option Int :=
  let t : Int := (win_filetime - filetime_epoch_offset).tdiv 10000000
  g_date_time_new_from_unix_utc t

/-- Output formats handled by `utils.c`.  The C value `FORMAT_UNKNOWN`
is modelled as `none` in the `Option out_fmt` holding the current
selection. -/
inductive out_fmt where
  | FORMAT_TEXT
  | FORMAT_XML
  | FORMAT_JSON
deriving DecidableEq, Repr

open out_fmt

/-- The function `_set_out_format` (utils.c lines 175-195): stores the desired
format when none is set, accepts a repeat of the same format, and fails
(option error, state unchanged) on a conflicting format.  Returns the
new stored format, the success flag, and the error produced. -/
def _set_out_format (output_format : Option out_fmt) (desired_format : out_fmt) :
    Option out_fmt × Bool × Option gerror :=
  if output_format = some desired_format then
    (output_format, true, none)
  else if output_format = none then
    (some desired_format, true, none)
  else
    (output_format, false,
      some ⟨G_OPTION_ERROR, G_OPTION_ERROR_FAILED,
        "Output was already set, but later argument attempts to change it"⟩)

/-- The function `_set_opt_format` (utils.c lines 198-222): parses the `-f` option
argument and delegates to `_set_out_format`; an unrecognized format
name is an option error leaving the stored format unchanged. -/
def _set_opt_format (output_format : Option out_fmt) (format : String) :
    Option out_fmt × Bool × Option gerror :=
  if format = "text" then _set_out_format output_format FORMAT_TEXT
  else if format = "tsv" then _set_out_format output_format FORMAT_TEXT
  else if format = "csv" then _set_out_format output_format FORMAT_TEXT
  else if format = "xml" then _set_out_format output_format FORMAT_XML
  else if format = "json" then _set_out_format output_format FORMAT_JSON
  else
    (output_format, false,
      some ⟨G_OPTION_ERROR, G_OPTION_ERROR_BAD_VALUE, "Illegal output format"⟩)

/-- The output-format fallback of `_set_def_output_opts` (utils.c lines
506-525): after option parsing, an unset format defaults to text. -/
def _set_def_output_opts (output_format : Option out_fmt) : out_fmt :=
  match output_format with
  | none   => FORMAT_TEXT
  | some f => f

/-- Outcome of the ASCII-compatibility self-check of a codepage.
Modelled from the spec: `enc_is_ascii_compatible` (utils-conv.c, not
part of `src/`) attempts to decode the ASCII range 0x00-0x7F through
the requested codepage; it fails with `G_CONVERT_ERROR_NO_CONVERSION`
when the runtime does not support the codepage, and with
`G_CONVERT_ERROR_ILLEGAL_SEQUENCE` or `G_CONVERT_ERROR_PARTIAL_INPUT`
when the codepage is not ASCII-compatible.  Which outcome occurs for a
given codepage name depends on the runtime's iconv tables, so the
outcome is taken as an oracle input here. -/
inductive ascii_check_result where
  | compatible
  | no_conversion
  | illegal_sequence
  | truncated_input
deriving DecidableEq, Repr

open ascii_check_result

/-- State touched by `_check_legacy_encoding`: the `seen` static and
the stored `legacy_encoding` global. -/
structure enc_opt_state where
  seen            : Bool
  legacy_encoding : Option String
deriving DecidableEq, Repr

/-- Initial state before option parsing: option unseen, no legacy
encoding stored. -/
def enc_opt_init : enc_opt_state := ⟨false, none⟩

/-- The function `_check_legacy_encoding` (utils.c lines 342-401): validates the
`-l` codepage argument.  A duplicate option, an empty argument, or a
codepage failing the ASCII self-check produce an option error and do
not store an encoding; the encoding is stored exactly when the
self-check succeeds.  `check` is the self-check oracle for
`enc_is_ascii_compatible`. -/
def _check_legacy_encoding (check : String → ascii_check_result)
    (st : enc_opt_state) (enc : String) :
    enc_opt_state × Bool × Option gerror :=
  if st.seen then
    (st, false,
      some ⟨G_OPTION_ERROR, G_OPTION_ERROR_FAILED,
        "Multiple encoding options disallowed."⟩)
  else
    let st := { st with seen := true }
    if enc = "" then
      (st, false,
        some ⟨G_OPTION_ERROR, G_OPTION_ERROR_BAD_VALUE,
          "Empty encoding option disallowed."⟩)
    else
      match check enc with
      | compatible =>
        ({ st with legacy_encoding := some enc }, true, none)
      | no_conversion =>
        (st, false,
          some ⟨G_OPTION_ERROR, G_OPTION_ERROR_BAD_VALUE,
            "encoding is not supported by glib library on this system."⟩)
      | illegal_sequence =>
        (st, false,
          some ⟨G_OPTION_ERROR, G_OPTION_ERROR_BAD_VALUE,
            "is incompatible to any Windows code page."⟩)
      | truncated_input =>
        (st, false,
          some ⟨G_OPTION_ERROR, G_OPTION_ERROR_BAD_VALUE,
            "is incompatible to any Windows code page."⟩)

/-- Modelled from the spec: the `GError` produced by a failed path
conversion inside `conv_path_to_utf8_with_tmpl` (utils-conv.c, not part
of `src/`). -/
def conv_fail_error : gerror :=
  ⟨err_domain.R2_RECORD_ERROR, err_code.OTHER_CODE, "path conversion failure"⟩

/-- Group a little-endian byte sequence into 16-bit code units;
fails (`none`) on an odd byte count (a truncated code unit). -/
def utf16le_units : List Nat → Option (List Nat)
  | []              => some []
  | [_]             => none
  | b0 :: b1 :: bs  => (utf16le_units bs).map (fun us => (b0 + 256 * b1) :: us)

/-- Combine UTF-16 surrogate pairs into code points; fails (`none`) on
an unpaired surrogate. -/
def utf16_combine : List Nat → Option (List Nat)
  | [] => some []
  | u :: rest =>
    if 0xD800 ≤ u ∧ u ≤ 0xDBFF then
      match rest with
      | [] => none
      | v :: rest2 =>
        if 0xDC00 ≤ v ∧ v ≤ 0xDFFF then
          (utf16_combine rest2).map
            (fun cs => (0x10000 + (u - 0xD800) * 0x400 + (v - 0xDC00)) :: cs)
        else
          none
    else if 0xDC00 ≤ u ∧ u ≤ 0xDFFF then
      none
    else
      (utf16_combine rest).map (fun cs => u :: cs)

/-- Modelled from the spec: `conv_path_to_utf8_with_tmpl`
(utils-conv.c, not part of `src/`), which converts a raw path byte
sequence into text.  Per the spec: with no legacy codepage the source
is strict UTF-16LE, where a truncated code unit or an unpaired
surrogate is a conversion failure; with a legacy codepage the bytes are
decoded through that codepage's mapping table.  The codepage mapping
tables are runtime iconv data the spec leaves abstract; they are
modelled as the identity on bytes, so only the UTF-16 failure modes are
exhibited here.  The output-format-specific escaping template is also
abstracted away (it affects only the rendered text).  The result is the
decoded code-point sequence, or the conversion error. -/
def conv_path_to_utf8_with_tmpl (src : List Nat) (from_enc : Option String)
    (_fmt : out_fmt) : Except gerror (List Nat) :=
  match from_enc with
  | none =>
    match utf16le_units src with
    | none => Except.error conv_fail_error
    | some units =>
      match utf16_combine units with
      | none => Except.error conv_fail_error
      | some cps => Except.ok cps
  | some _ => Except.ok src

/-- GLib `g_set_error` semantics on a record's error slot: a new error
is stored only when the slot is empty; an already-set `GError` is kept
(setting over a non-NULL `GError` is a glib programming error that
leaves the original in place). -/
def g_set_error_opt (slot : Option gerror) (e : gerror) : Option gerror :=
  match slot with
  | some _ => slot
  | none   => some e

/-- Fields of one record row of the TSV output, as assembled by
`_print_text_record` (the `header` array).  The deletion time and the
gone flag are carried as values; their textual rendering is done by
glib formatting functions. -/
structure text_record_out where
  index   : String
  deltime : Int
  gone    : gone_state
  size    : String
  path    : List Nat
deriving DecidableEq, Repr

/-- Fields of one `<record>` element of the XML output, as assembled by
`_print_xml_record`.  A failed path conversion yields an empty
`<path/>` element, modelled as `none`. -/
structure xml_record_out where
  index   : String
  deltime : Int
  gone    : gone_state
  size    : String
  path    : Option (List Nat)
deriving DecidableEq, Repr

/-- Fields of one record object of the JSON output, as assembled by
`_print_json_record`.  A failed path conversion yields `"path": null`,
modelled as `none`. -/
structure json_record_out where
  index   : String
  deltime : Int
  gone    : gone_state
  size    : String
  path    : Option (List Nat)
deriving DecidableEq, Repr

/-- The function `_print_text_record` (utils.c lines 1079-1119):
renders one record as a TSV row.  Returns the row fields and the
record as it stands afterwards (the conversion call receives
`&record->error`, so a conversion failure can set a previously unset
record error).  `legacy_encoding` is the module global of the same
name. -/
def _print_text_record (legacy_encoding : Option String)
    (record : rbin_struct) (meta : metarecord) :
    text_record_out × rbin_struct :=
  let index : String :=
    match meta.type with
    | RECYCLE_BIN_TYPE_FILE => toString record.index_n
    | RECYCLE_BIN_TYPE_DIR  => record.index_s
  let size : String :=
    if record.filesize = G_MAXUINT64 then "???"
    else toString record.filesize
  let src : List Nat :=
    match legacy_encoding with
    | some _ => record.raw_legacy_path
    | none   => record.raw_uni_path
  match conv_path_to_utf8_with_tmpl src legacy_encoding out_fmt.FORMAT_TEXT with
  | Except.ok p =>
    (⟨index, record.deltime, record.gone, size, p⟩, record)
  | Except.error e =>
    (⟨index, record.deltime, record.gone, size, [63, 63, 63]⟩,
     { record with error := g_set_error_opt record.error e })

/-- The function `_print_xml_record` (utils.c lines 1122-1181): renders
one record as an XML `<record>` element.  Returns the element fields
and the record as it stands afterwards. -/
def _print_xml_record (legacy_encoding : Option String)
    (record : rbin_struct) (meta : metarecord) :
    xml_record_out × rbin_struct :=
  let index : String :=
    match meta.type with
    | RECYCLE_BIN_TYPE_FILE => toString record.index_n
    | RECYCLE_BIN_TYPE_DIR  => record.index_s
  let size : String :=
    if record.filesize = G_MAXUINT64 then "-1"
    else toString record.filesize
  let src : List Nat :=
    match legacy_encoding with
    | some _ => record.raw_legacy_path
    | none   => record.raw_uni_path
  match conv_path_to_utf8_with_tmpl src legacy_encoding out_fmt.FORMAT_XML with
  | Except.ok p =>
    (⟨index, record.deltime, record.gone, size, some p⟩, record)
  | Except.error e =>
    (⟨index, record.deltime, record.gone, size, none⟩,
     { record with error := g_set_error_opt record.error e })

/-- The function `_print_json_record` (utils.c lines 1184-1239):
renders one record as a JSON object.  Returns the object fields and
the record as it stands afterwards. -/
def _print_json_record (legacy_encoding : Option String)
    (record : rbin_struct) (meta : metarecord) :
    json_record_out × rbin_struct :=
  let index : String :=
    match meta.type with
    | RECYCLE_BIN_TYPE_FILE => toString record.index_n
    | RECYCLE_BIN_TYPE_DIR  => record.index_s
  let size : String :=
    if record.filesize = G_MAXUINT64 then "null"
    else toString record.filesize
  let src : List Nat :=
    match legacy_encoding with
    | some _ => record.raw_legacy_path
    | none   => record.raw_uni_path
  match conv_path_to_utf8_with_tmpl src legacy_encoding out_fmt.FORMAT_JSON with
  | Except.ok p =>
    (⟨index, record.deltime, record.gone, size, some p⟩, record)
  | Except.error e =>
    (⟨index, record.deltime, record.gone, size, none⟩,
     { record with error := g_set_error_opt record.error e })

/-! ## Theorems settling the claims -/

/-- C4: for every flat-file artifact metadata bearing the mid-era
(ME/2000/XP/2003) version tag, `_guess_windows_ver` applies its tests
in this fixed order: record layout size 280 (the smaller of the two
known INFO2 layout sizes) maps to Windows ME; otherwise an empty record
set maps to the indistinguishable "Windows 2000, XP or 2003" answer;
otherwise the junk-pattern flag selects Windows 2000 when set and
Windows XP/2003 when unset. -/
theorem C4_flat_file_classifier_order (meta : metarecord)
    (ht : meta.type = RECYCLE_BIN_TYPE_FILE)
    (hv : meta.version = VERSION_ME_03) :
    _guess_windows_ver meta =
      some (if meta.recordsize = 280 then OS_GUESS_ME
        else if meta.records.length = 0 then OS_GUESS_2K_03
        else if meta.fill_junk then OS_GUESS_2K
        else OS_GUESS_XP_03) := by
  unfold _guess_windows_ver
  rw [ht, hv]
  split_ifs <;> rfl

/-- Witness for C4 at a concrete metadata value: INFO2, ME/2000/XP/2003
tag, record size 280, empty record set. -/
theorem C4_flat_file_classifier_order_witness :
    _guess_windows_ver
      ⟨"INFO2", RECYCLE_BIN_TYPE_FILE, VERSION_ME_03, 280, 0, false, [], []⟩
      = some OS_GUESS_ME := by
  have h := C4_flat_file_classifier_order
    ⟨"INFO2", RECYCLE_BIN_TYPE_FILE, VERSION_ME_03, 280, 0, false, [], []⟩
    rfl rfl
  simpa using h

/-- C1 counterexample: the claim asserts that a flat-file ME/2000/XP/2003
artifact with record size 280 and at least one record is classified by
the junk-pattern flag (Windows 2000 when set, Windows XP/2003 when
unset).  The code returns Windows ME for record size 280 regardless of
the record count: at a concrete metadata value with record size 280,
one record and the junk flag unset, the classifier answers Windows ME
rather than Windows XP/2003. -/
theorem C1_counterexample :
    ¬ (∀ m : metarecord, m.type = RECYCLE_BIN_TYPE_FILE →
        m.version = VERSION_ME_03 → m.recordsize = 280 →
        1 ≤ m.records.length →
        _guess_windows_ver m =
          some (if m.fill_junk then OS_GUESS_2K else OS_GUESS_XP_03)) := by
  intro h
  have := h
    ⟨"INFO2", RECYCLE_BIN_TYPE_FILE, VERSION_ME_03, 280, 1, false,
      [⟨1, "", 0, gone_state.GONE_UNKNOWN, 0, [], [], none⟩], []⟩
    rfl rfl rfl (by decide)
  simp [_guess_windows_ver] at this

/-- C1 (amended): for every flat-file artifact metadata bearing the
ME/2000/XP/2003 version tag, a record layout size of 280 maps to
Windows ME whether or not the record set is empty; the junk-pattern
flag is consulted only when the layout size differs from 280 and the
record set is non-empty, picking Windows 2000 when set and Windows
XP/2003 when unset. -/
theorem C1_amended_recordsize_280_always_ME (meta : metarecord)
    (ht : meta.type = RECYCLE_BIN_TYPE_FILE)
    (hv : meta.version = VERSION_ME_03) :
    (meta.recordsize = 280 → _guess_windows_ver meta = some OS_GUESS_ME) ∧
    (meta.recordsize ≠ 280 → 1 ≤ meta.records.length →
      _guess_windows_ver meta =
        some (if meta.fill_junk then OS_GUESS_2K else OS_GUESS_XP_03)) := by
  constructor
  · intro h280
    unfold _guess_windows_ver
    rw [ht, hv]
    simp [h280]
  · intro h280 hlen
    unfold _guess_windows_ver
    rw [ht, hv]
    have hne : ¬ meta.records.length = 0 := by omega
    simp [h280, hne]
    split_ifs <;> rfl

/-- Witness for the amended C1 at a concrete metadata value with record
size 280, one record and the junk flag unset: the classifier answers
Windows ME. -/
theorem C1_amended_recordsize_280_always_ME_witness :
    _guess_windows_ver
      ⟨"INFO2", RECYCLE_BIN_TYPE_FILE, VERSION_ME_03, 280, 1, false,
        [⟨1, "", 0, gone_state.GONE_UNKNOWN, 0, [], [], none⟩], []⟩
      = some OS_GUESS_ME :=
  (C1_amended_recordsize_280_always_ME
    ⟨"INFO2", RECYCLE_BIN_TYPE_FILE, VERSION_ME_03, 280, 1, false,
      [⟨1, "", 0, gone_state.GONE_UNKNOWN, 0, [], [], none⟩], []⟩
    rfl rfl).1 rfl

/-- C5: for every per-item (directory-type) artifact metadata,
`_guess_windows_ver` maps the Vista tag to the Vista-8.1 marker, the
Win10 tag to the Windows-10-or-above marker, and every other tag to the
unknown marker; the classifier never aborts for directory-type
metadata, and the unknown answer is rendered by `_print_text_header` as
the "OS detection failed" text. -/
theorem C5_dir_version_classification (meta : metarecord)
    (ht : meta.type = RECYCLE_BIN_TYPE_DIR) :
    (Option.isSome (_guess_windows_ver meta) = true) ∧
    (meta.version = VERSION_VISTA →
      _guess_windows_ver meta = some OS_GUESS_VISTA) ∧
    (meta.version = VERSION_WIN10 →
      _guess_windows_ver meta = some OS_GUESS_10) ∧
    (meta.version ≠ VERSION_VISTA → meta.version ≠ VERSION_WIN10 →
      _guess_windows_ver meta = some OS_GUESS_UNKNOWN ∧
      _print_text_header_os_line meta = "OS detection failed") := by
  refine ⟨?_, ?_, ?_, ?_⟩
  · unfold _guess_windows_ver
    rw [ht]
    cases meta.version <;> rfl
  · intro hv
    unfold _guess_windows_ver
    rw [ht, hv]
  · intro hv
    unfold _guess_windows_ver
    rw [ht, hv]
  · intro hv1 hv2
    have hg : _guess_windows_ver meta = some OS_GUESS_UNKNOWN := by
      unfold _guess_windows_ver
      rw [ht]
      cases h : meta.version <;> first
        | rfl
        | exact absurd h hv1
        | exact absurd h hv2
    refine ⟨hg, ?_⟩
    unfold _print_text_header_os_line
    rw [hg]
    rfl

/-- Witness for C5 at a concrete directory-type metadata value carrying
the not-found version tag: the classifier answers unknown and the
header renders the detection-failure text. -/
theorem C5_dir_version_classification_witness :
    _guess_windows_ver
      ⟨"\\$Recycle.bin", RECYCLE_BIN_TYPE_DIR, VERSION_NOT_FOUND, 0, 0,
        false, [], []⟩ = some OS_GUESS_UNKNOWN ∧
    _print_text_header_os_line
      ⟨"\\$Recycle.bin", RECYCLE_BIN_TYPE_DIR, VERSION_NOT_FOUND, 0, 0,
        false, [], []⟩ = "OS detection failed" :=
  (C5_dir_version_classification
    ⟨"\\$Recycle.bin", RECYCLE_BIN_TYPE_DIR, VERSION_NOT_FOUND, 0, 0,
      false, [], []⟩ rfl).2.2.2 (by decide) (by decide)

/-- Helper: with a non-NULL global error, `_get_exit_code` returns
neither the full-success code nor the dubious-data code (every branch
yields a distinct fatal-error code). -/
theorem _get_exit_code_some_ne (e : gerror) :
    _get_exit_code (some e) ≠ EXIT_OK ∧
    _get_exit_code (some e) ≠ EXIT_ERR_DUBIOUS_DATA := by
  simp only [_get_exit_code]
  split_ifs <;> simp

/-- C3: if the scan ends with the global error unset but at least one
record carries a decode error or the unreadable-entries map is
non-empty, `rifiuti_cleanup` computes the distinct dubious-data exit
code, not the full-success code; conversely, when a fatal error is
present its exit code is never replaced by the dubious-data code. -/
theorem C3_dubious_data_exit_code (error : Option gerror) (meta : metarecord) :
    (error = none →
      (meta.records.any (fun r => r.error.isSome) = true ∨
        meta.invalid_records ≠ []) →
      rifiuti_cleanup error meta = EXIT_ERR_DUBIOUS_DATA ∧
      EXIT_ERR_DUBIOUS_DATA ≠ EXIT_OK) ∧
    (∀ e, error = some e →
      rifiuti_cleanup error meta = _get_exit_code (some e) ∧
      rifiuti_cleanup error meta ≠ EXIT_ERR_DUBIOUS_DATA) := by
  constructor
  · rintro rfl hrec
    have hhas : _has_record_error meta = true := by
      unfold _has_record_error
      rcases hrec with h | h
      · simp [h]
      · cases hinv : meta.invalid_records with
        | nil => exact absurd hinv h
        | cons a l => simp [hinv]
    unfold rifiuti_cleanup
    simp [hhas, _get_exit_code]
  · rintro e rfl
    have h := _get_exit_code_some_ne e
    unfold rifiuti_cleanup
    constructor
    · simp [h.1]
    · simp only [h.1, and_false, if_false]
      exact h.2

/-- Witness for C3 at concrete inputs: with no fatal error and one
record carrying a decode error, the exit code is the dubious-data
code; with a fatal file error present, the exit code stays the
open-file code. -/
theorem C3_dubious_data_exit_code_witness :
    rifiuti_cleanup none
      ⟨"INFO2", RECYCLE_BIN_TYPE_FILE, VERSION_ME_03, 800, 1, false,
        [⟨1, "", 0, gone_state.GONE_UNKNOWN, 0, [], [],
          some ⟨err_domain.R2_RECORD_ERROR, err_code.OTHER_CODE, "bad path"⟩⟩],
        []⟩ = EXIT_ERR_DUBIOUS_DATA ∧
    rifiuti_cleanup
      (some ⟨err_domain.G_FILE_ERROR, err_code.G_FILE_ERROR_NOENT, "missing"⟩)
      ⟨"INFO2", RECYCLE_BIN_TYPE_FILE, VERSION_ME_03, 800, 1, false,
        [⟨1, "", 0, gone_state.GONE_UNKNOWN, 0, [], [],
          some ⟨err_domain.R2_RECORD_ERROR, err_code.OTHER_CODE, "bad path"⟩⟩],
        []⟩ = EXIT_ERR_OPEN_FILE := by
  constructor
  · exact ((C3_dubious_data_exit_code none _).1 rfl (Or.inl (by decide))).1
  · have h := ((C3_dubious_data_exit_code
      (some ⟨err_domain.G_FILE_ERROR, err_code.G_FILE_ERROR_NOENT, "missing"⟩)
      ⟨"INFO2", RECYCLE_BIN_TYPE_FILE, VERSION_ME_03, 800, 1, false,
        [⟨1, "", 0, gone_state.GONE_UNKNOWN, 0, [], [],
          some ⟨err_domain.R2_RECORD_ERROR, err_code.OTHER_CODE, "bad path"⟩⟩],
        []⟩).2 _ rfl).1
    rw [h]
    decide

/-- C6 counterexample: the claim asserts that every signed 64-bit tick
count converts to the UTC instant with unix second count
`(ticks - 116444736000000000).tdiv 10000000`.  At ticks `2 ^ 62` (a
valid `int64_t`) that second count is 449524128242, which lies beyond
the year 9999, so `g_date_time_new_from_unix_utc` returns `NULL` and
`win_filetime_to_gdatetime` yields no instant at all. -/
theorem C6_counterexample :
    ¬ (∀ ft : Int, -(2 ^ 63) ≤ ft → ft < 2 ^ 63 →
        win_filetime_to_gdatetime ft =
          some ((ft - filetime_epoch_offset).tdiv 10000000)) := by
  intro h
  have := h (2 ^ 62) (by norm_num) (by norm_num)
  exact absurd this (by decide)

/-- C6 (amended): `win_filetime_to_gdatetime` interprets every signed
64-bit tick count as 100-nanosecond ticks since 1601-01-01 UTC and
computes the truncated second count
`(ticks - 116444736000000000).tdiv 10000000` (C truncating `int64_t`
division).  Whenever that second count lies within the `GDateTime`
representable range (years 0001-9999), it returns exactly the UTC
instant with that unix second count; outside that range it returns no
instant (C `NULL`). -/
theorem C6_amended_filetime_conversion (ft : Int) :
    (gdatetime_min_unix ≤ (ft - filetime_epoch_offset).tdiv 10000000 ∧
        (ft - filetime_epoch_offset).tdiv 10000000 ≤ gdatetime_max_unix →
      win_filetime_to_gdatetime ft =
        some ((ft - filetime_epoch_offset).tdiv 10000000)) ∧
    (¬ (gdatetime_min_unix ≤ (ft - filetime_epoch_offset).tdiv 10000000 ∧
        (ft - filetime_epoch_offset).tdiv 10000000 ≤ gdatetime_max_unix) →
      win_filetime_to_gdatetime ft = none) := by
  constructor
  · intro h
    unfold win_filetime_to_gdatetime g_date_time_new_from_unix_utc
    simp [h.1, h.2]
  · intro h
    unfold win_filetime_to_gdatetime g_date_time_new_from_unix_utc
    exact if_neg h

/-- Witness for the amended C6 at both branches: ticks
116444736010000000 (one second past the unix epoch) convert to the UTC
instant with unix second count 1, and ticks `2 ^ 62` (second count
449524128242, beyond year 9999) convert to no instant. -/
theorem C6_amended_filetime_conversion_witness :
    win_filetime_to_gdatetime 116444736010000000 = some 1 ∧
    win_filetime_to_gdatetime (2 ^ 62) = none := by
  constructor
  · have h := (C6_amended_filetime_conversion 116444736010000000).1
      (by decide)
    have h2 : ((116444736010000000 : Int) - filetime_epoch_offset).tdiv
        10000000 = 1 := by decide
    rw [h2] at h
    exact h
  · exact (C6_amended_filetime_conversion (2 ^ 62)).2 (by decide)

/-- C7: starting from the initial configuration state, a legacy
codepage option with an empty identifier, or whose ASCII-compatibility
self-check fails (codepage unsupported by the runtime, or incompatible
with the ASCII range), is rejected with an option error and the stored
legacy encoding remains unset; the encoding is stored if and only if
the identifier is non-empty and the self-check succeeds; and any
duplicate occurrence of the option is rejected with an option error
without touching the stored encoding. -/
theorem C7_legacy_encoding_validation (check : String → ascii_check_result)
    (enc : String) :
    (enc = "" →
      (_check_legacy_encoding check enc_opt_init enc).2.1 = false ∧
      ((_check_legacy_encoding check enc_opt_init enc).2.2).isSome = true ∧
      (_check_legacy_encoding check enc_opt_init enc).1.legacy_encoding
        = none) ∧
    (check enc ≠ ascii_check_result.compatible →
      (_check_legacy_encoding check enc_opt_init enc).2.1 = false ∧
      ((_check_legacy_encoding check enc_opt_init enc).2.2).isSome = true ∧
      (_check_legacy_encoding check enc_opt_init enc).1.legacy_encoding
        = none) ∧
    ((_check_legacy_encoding check enc_opt_init enc).1.legacy_encoding
        = some enc
      ↔ enc ≠ "" ∧ check enc = ascii_check_result.compatible) ∧
    (∀ (st : enc_opt_state) (enc2 : String), st.seen = true →
      _check_legacy_encoding check st enc2 =
        (st, false,
          some ⟨err_domain.G_OPTION_ERROR, err_code.G_OPTION_ERROR_FAILED,
            "Multiple encoding options disallowed."⟩)) := by
  refine ⟨?_, ?_, ?_, ?_⟩
  · rintro rfl
    simp [_check_legacy_encoding, enc_opt_init]
  · intro hc
    unfold _check_legacy_encoding enc_opt_init
    by_cases he : enc = ""
    · simp [he]
    · cases hck : check enc
      · exact absurd hck hc
      · simp [he, hck]
      · simp [he, hck]
      · simp [he, hck]
  · unfold _check_legacy_encoding enc_opt_init
    by_cases he : enc = ""
    · simp [he]
    · cases hck : check enc <;> simp [he, hck]
  · intro st enc2 hseen
    unfold _check_legacy_encoding
    simp [hseen]

/-- Witness for C7 at concrete inputs: a non-empty codepage passing the
self-check is stored; a codepage failing it with a no-conversion
outcome leaves the encoding unset. -/
theorem C7_legacy_encoding_validation_witness :
    (_check_legacy_encoding (fun _ => ascii_check_result.compatible)
      enc_opt_init "CP1252").1.legacy_encoding = some "CP1252" ∧
    (_check_legacy_encoding (fun _ => ascii_check_result.no_conversion)
      enc_opt_init "bogus").1.legacy_encoding = none := by
  constructor
  · exact (C7_legacy_encoding_validation
      (fun _ => ascii_check_result.compatible) "CP1252").2.2.1.mpr
      ⟨by decide, rfl⟩
  · exact ((C7_legacy_encoding_validation
      (fun _ => ascii_check_result.no_conversion) "bogus").2.1
      (by decide)).2.2

/-- C10: the selected output format is write-once: a first request is
stored, a repeated request for the same format succeeds as a no-op, a
request for a different format fails with an option error and leaves
the stored format unchanged, and a format still unset at the end of
option parsing defaults to text. -/
theorem C10_output_format_write_once :
    (∀ d : out_fmt, _set_out_format none d = (some d, true, none)) ∧
    (∀ d : out_fmt, _set_out_format (some d) d = (some d, true, none)) ∧
    (∀ d e : out_fmt, d ≠ e →
      (_set_out_format (some e) d).1 = some e ∧
      (_set_out_format (some e) d).2.1 = false ∧
      ((_set_out_format (some e) d).2.2).isSome = true) ∧
    _set_def_output_opts none = out_fmt.FORMAT_TEXT ∧
    (∀ f : out_fmt, _set_def_output_opts (some f) = f) := by
  refine ⟨?_, ?_, ?_, rfl, fun f => rfl⟩
  · intro d
    simp [_set_out_format]
  · intro d
    simp [_set_out_format]
  · intro d e hne
    have hne' : e ≠ d := fun h => hne h.symm
    simp [_set_out_format, hne']

/-- Witness for C10 at concrete formats: after XML was stored, a later
request for text fails and XML stays stored. -/
theorem C10_output_format_write_once_witness :
    (_set_out_format (some out_fmt.FORMAT_XML) out_fmt.FORMAT_TEXT).1
      = some out_fmt.FORMAT_XML ∧
    (_set_out_format (some out_fmt.FORMAT_XML) out_fmt.FORMAT_TEXT).2.1
      = false := by
  have h := C10_output_format_write_once.2.2.1
    out_fmt.FORMAT_TEXT out_fmt.FORMAT_XML (by decide)
  exact ⟨h.1, h.2.1⟩

/-- Helper: the size field of a TSV row is the sentinel marker or the
decimal rendering of the record's size field. -/
theorem _print_text_record_size (le : Option String) (r : rbin_struct)
    (meta : metarecord) :
    (_print_text_record le r meta).1.size =
      if r.filesize = G_MAXUINT64 then "???" else toString r.filesize := by
  simp only [_print_text_record]
  split <;> rfl

/-- Helper: the size attribute of an XML record element is the
sentinel marker or the decimal rendering of the record's size field. -/
theorem _print_xml_record_size (le : Option String) (r : rbin_struct)
    (meta : metarecord) :
    (_print_xml_record le r meta).1.size =
      if r.filesize = G_MAXUINT64 then "-1" else toString r.filesize := by
  simp only [_print_xml_record]
  split <;> rfl

/-- Helper: the size member of a JSON record object is the sentinel
marker or the decimal rendering of the record's size field. -/
theorem _print_json_record_size (le : Option String) (r : rbin_struct)
    (meta : metarecord) :
    (_print_json_record le r meta).1.size =
      if r.filesize = G_MAXUINT64 then "null" else toString r.filesize := by
  simp only [_print_json_record]
  split <;> rfl

/-- C9: a record whose size field equals the all-bits-set 64-bit
sentinel is reported by every serializer as the unknown marker (text
`???`, XML `-1`, JSON `null`) and never as the literal decimal value
of 2^64-1; any other size value is reported as exactly that decimal
number. -/
theorem C9_size_sentinel_rendering (le : Option String) (r : rbin_struct)
    (meta : metarecord) :
    (r.filesize = G_MAXUINT64 →
      (_print_text_record le r meta).1.size = "???" ∧
      (_print_xml_record le r meta).1.size = "-1" ∧
      (_print_json_record le r meta).1.size = "null" ∧
      (_print_text_record le r meta).1.size ≠ toString G_MAXUINT64 ∧
      (_print_xml_record le r meta).1.size ≠ toString G_MAXUINT64 ∧
      (_print_json_record le r meta).1.size ≠ toString G_MAXUINT64) ∧
    (r.filesize ≠ G_MAXUINT64 →
      (_print_text_record le r meta).1.size = toString r.filesize ∧
      (_print_xml_record le r meta).1.size = toString r.filesize ∧
      (_print_json_record le r meta).1.size = toString r.filesize) := by
  constructor
  · intro hs
    refine ⟨?_, ?_, ?_, ?_, ?_, ?_⟩
    · rw [_print_text_record_size, if_pos hs]
    · rw [_print_xml_record_size, if_pos hs]
    · rw [_print_json_record_size, if_pos hs]
    · rw [_print_text_record_size, if_pos hs]; decide
    · rw [_print_xml_record_size, if_pos hs]; decide
    · rw [_print_json_record_size, if_pos hs]; decide
  · intro hs
    refine ⟨?_, ?_, ?_⟩
    · rw [_print_text_record_size, if_neg hs]
    · rw [_print_xml_record_size, if_neg hs]
    · rw [_print_json_record_size, if_neg hs]

/-- Witness for C9 at concrete records: the sentinel size renders as
the text marker, and the ordinary size 1024 renders as its decimal
digits. -/
theorem C9_size_sentinel_rendering_witness :
    (_print_text_record none
      ⟨1, "", 0, gone_state.GONE_UNKNOWN, G_MAXUINT64, [], [], none⟩
      ⟨"INFO2", RECYCLE_BIN_TYPE_FILE, VERSION_ME_03, 280, 1, false, [], []⟩
      ).1.size = "???" ∧
    (_print_text_record none
      ⟨1, "", 0, gone_state.GONE_UNKNOWN, 1024, [], [], none⟩
      ⟨"INFO2", RECYCLE_BIN_TYPE_FILE, VERSION_ME_03, 280, 1, false, [], []⟩
      ).1.size = "1024" := by
  constructor
  · exact ((C9_size_sentinel_rendering none
      ⟨1, "", 0, gone_state.GONE_UNKNOWN, G_MAXUINT64, [], [], none⟩
      ⟨"INFO2", RECYCLE_BIN_TYPE_FILE, VERSION_ME_03, 280, 1, false, [], []⟩
      ).1 rfl).1
  · have h := ((C9_size_sentinel_rendering none
      ⟨1, "", 0, gone_state.GONE_UNKNOWN, 1024, [], [], none⟩
      ⟨"INFO2", RECYCLE_BIN_TYPE_FILE, VERSION_ME_03, 280, 1, false, [], []⟩
      ).2 (by decide)).1
    rw [h]
    decide

/-- C8: at serialization time every output format converts the raw
legacy path bytes if and only if a legacy codepage was configured.
With a codepage configured, the rendered row and the record's error
slot are independent of the raw Unicode path, and a successful
conversion of the legacy bytes is what appears as the path field.
With no codepage, the legacy path bytes play no role at all (row and
error slot are independent of them) and the raw Unicode path is the
conversion source. -/
theorem C8_conversion_source_selection (cp : String) (r : rbin_struct)
    (meta : metarecord) (p : List Nat) :
    ((_print_text_record (some cp) { r with raw_uni_path := p } meta).1
      = (_print_text_record (some cp) r meta).1) ∧
    ((_print_text_record (some cp) { r with raw_uni_path := p } meta).2.error
      = (_print_text_record (some cp) r meta).2.error) ∧
    ((_print_xml_record (some cp) { r with raw_uni_path := p } meta).1
      = (_print_xml_record (some cp) r meta).1) ∧
    ((_print_xml_record (some cp) { r with raw_uni_path := p } meta).2.error
      = (_print_xml_record (some cp) r meta).2.error) ∧
    ((_print_json_record (some cp) { r with raw_uni_path := p } meta).1
      = (_print_json_record (some cp) r meta).1) ∧
    ((_print_json_record (some cp) { r with raw_uni_path := p } meta).2.error
      = (_print_json_record (some cp) r meta).2.error) ∧
    ((_print_text_record none { r with raw_legacy_path := p } meta).1
      = (_print_text_record none r meta).1) ∧
    ((_print_text_record none { r with raw_legacy_path := p } meta).2.error
      = (_print_text_record none r meta).2.error) ∧
    ((_print_xml_record none { r with raw_legacy_path := p } meta).1
      = (_print_xml_record none r meta).1) ∧
    ((_print_xml_record none { r with raw_legacy_path := p } meta).2.error
      = (_print_xml_record none r meta).2.error) ∧
    ((_print_json_record none { r with raw_legacy_path := p } meta).1
      = (_print_json_record none r meta).1) ∧
    ((_print_json_record none { r with raw_legacy_path := p } meta).2.error
      = (_print_json_record none r meta).2.error) ∧
    (∀ q, conv_path_to_utf8_with_tmpl r.raw_legacy_path (some cp)
        out_fmt.FORMAT_TEXT = Except.ok q →
      (_print_text_record (some cp) r meta).1.path = q) ∧
    (∀ q, conv_path_to_utf8_with_tmpl r.raw_uni_path none
        out_fmt.FORMAT_TEXT = Except.ok q →
      (_print_text_record none r meta).1.path = q) ∧
    (∀ q, conv_path_to_utf8_with_tmpl r.raw_legacy_path (some cp)
        out_fmt.FORMAT_XML = Except.ok q →
      (_print_xml_record (some cp) r meta).1.path = some q) ∧
    (∀ q, conv_path_to_utf8_with_tmpl r.raw_uni_path none
        out_fmt.FORMAT_XML = Except.ok q →
      (_print_xml_record none r meta).1.path = some q) ∧
    (∀ q, conv_path_to_utf8_with_tmpl r.raw_legacy_path (some cp)
        out_fmt.FORMAT_JSON = Except.ok q →
      (_print_json_record (some cp) r meta).1.path = some q) ∧
    (∀ q, conv_path_to_utf8_with_tmpl r.raw_uni_path none
        out_fmt.FORMAT_JSON = Except.ok q →
      (_print_json_record none r meta).1.path = some q) := by
  refine ⟨?_, ?_, ?_, ?_, ?_, ?_, ?_, ?_, ?_, ?_, ?_, ?_, ?_, ?_, ?_, ?_,
    ?_, ?_⟩ <;>
    simp only [_print_text_record, _print_xml_record, _print_json_record]
  all_goals
    first
    | (split <;> rfl)
    | (intro q hq
       rw [hq])

/-- Witness for C8 at a concrete record whose Unicode path decodes to
the single letter A: with no codepage configured the text row shows
that decoding of the Unicode bytes. -/
theorem C8_conversion_source_selection_witness :
    (_print_text_record none
      ⟨1, "", 0, gone_state.GONE_UNKNOWN, 0, [65, 0], [66], none⟩
      ⟨"INFO2", RECYCLE_BIN_TYPE_FILE, VERSION_ME_03, 280, 1, false, [], []⟩
      ).1.path = [65] := by
  exact (C8_conversion_source_selection "CP1252"
    ⟨1, "", 0, gone_state.GONE_UNKNOWN, 0, [65, 0], [66], none⟩
    ⟨"INFO2", RECYCLE_BIN_TYPE_FILE, VERSION_ME_03, 280, 1, false, [], []⟩
    []).2.2.2.2.2.2.2.2.2.2.2.2.2.1 [65] rfl

/-- Helper: writing a record's own attached error back into the record
is the identity. -/
theorem _set_same_error_eq (r : rbin_struct) (a : gerror)
    (h : r.error = some a) : { r with error := some a } = r := by
  rw [← h]

/-- C2 counterexample: the claim asserts that serialization leaves
every record field, including the attached decode error, unchanged.
The record printers pass the record's error slot into the path
conversion, so a conversion failure at serialization time sets a
previously-unset error: at a concrete record with no attached error
and a truncated (odd-length) Unicode path, the text serializer
returns the record with an error now attached. -/
theorem C2_counterexample :
    ((_print_text_record none
        ⟨1, "", 0, gone_state.GONE_UNKNOWN, 0, [65], [], none⟩
        ⟨"INFO2", RECYCLE_BIN_TYPE_FILE, VERSION_ME_03, 280, 1, false, [], []⟩
      ).2.error).isSome = true ∧
    ((⟨1, "", 0, gone_state.GONE_UNKNOWN, 0, [65], [], none⟩ : rbin_struct).error).isSome = false :=
  ⟨rfl, rfl⟩

/-- C2 (amended): serializing a record in any of the text, XML or JSON
formats either leaves the record entirely unchanged, or — when the
record carried no decode error and the path conversion performed at
serialization time fails — returns the record unchanged except that
its previously-unset decode error is now set.  In particular an
already-attached error is never cleared or replaced, and no field
other than the decode error ever changes. -/
theorem C2_amended_serialization_frame (le : Option String)
    (r : rbin_struct) (meta : metarecord) :
    ((_print_text_record le r meta).2 = r ∨
      (r.error = none ∧
       ((_print_text_record le r meta).2.error).isSome = true ∧
       (_print_text_record le r meta).2
         = { r with error := (_print_text_record le r meta).2.error })) ∧
    ((_print_xml_record le r meta).2 = r ∨
      (r.error = none ∧
       ((_print_xml_record le r meta).2.error).isSome = true ∧
       (_print_xml_record le r meta).2
         = { r with error := (_print_xml_record le r meta).2.error })) ∧
    ((_print_json_record le r meta).2 = r ∨
      (r.error = none ∧
       ((_print_json_record le r meta).2.error).isSome = true ∧
       (_print_json_record le r meta).2
         = { r with error := (_print_json_record le r meta).2.error })) := by
  refine ⟨?_, ?_, ?_⟩ <;>
    simp only [_print_text_record, _print_xml_record, _print_json_record]
  all_goals
    split
    · exact Or.inl rfl
    · cases herr : r.error with
      | some a =>
        exact Or.inl (by
          simp only [g_set_error_opt, herr]
          exact _set_same_error_eq r a herr)
      | none =>
        exact Or.inr ⟨rfl, by simp [g_set_error_opt], rfl⟩

end Rifiuti
